import Mathlib

/-!
Shallow embedding of the suiforge deployment pipeline and its on-chain
modules (Move contracts `anti_bot`, `liquidity_locker`, `fee_distributor`,
and the JavaScript orchestration/admission layer), together with theorems
settling the specification claims about them.

Conventions of the embedding:
* Move `address` values are modelled as `Nat`.
* Move `u64` arithmetic aborts on overflow, underflow and division by
  zero; we model u64 values as `Nat` guarded by explicit checks against
  `u64Max`, and an aborting operation returns `Except MoveErr _`.
* A Move `assert!(cond, code)` failure aborts the transaction, which
  reverts every effect of the call; an aborting call is therefore
  modelled as returning `.error _` with the caller keeping the pre-call
  state (made explicit by the `persist` helpers).
* Move `sui::table::Table` is modelled as an association list; `table::add`
  on a present key and `table::remove`/`borrow` on an absent key abort
  (`MoveErr.invariant`), as does `balance::split` beyond the held value.
* The JavaScript side is single-threaded and deterministic given the
  results of its awaited collaborators, so each JS function is embedded
  as a pure function of its inputs plus a record of collaborator
  outcomes; `Math.random`-based choices take the random draw as an
  explicit argument.
-/

/-- Decidable equality for `Except`, so that concrete runs of the
embedded operations can be settled by `decide`. -/
instance {ε α : Type _} [DecidableEq ε] [DecidableEq α] :
    DecidableEq (Except ε α)
  | .ok a, .ok b =>
    if h : a = b then .isTrue (by rw [h])
    else .isFalse (fun c => h (Except.ok.inj c))
  | .ok _, .error _ => .isFalse (fun c => Except.noConfusion c)
  | .error _, .ok _ => .isFalse (fun c => Except.noConfusion c)
  | .error e, .error f =>
    if h : e = f then .isTrue (by rw [h])
    else .isFalse (fun c => h (Except.error.inj c))

/-- Largest value of a Move `u64`. -/
def u64Max : Nat := 2 ^ 64 - 1

/-- Abort causes of a Move call: an `assert!` with its code, a checked
arithmetic failure (overflow / underflow / division by zero), or a
runtime invariant failure of `table` / `balance` primitives. -/
inductive MoveErr where
  | abort (code : Nat)
  | arith
  | invariant
deriving DecidableEq, Repr

/-- Checked u64 addition: aborts when the sum exceeds `u64Max`. -/
def chkAdd (a b : Nat) : Except MoveErr Nat :=
  if a + b ≤ u64Max then .ok (a + b) else .error .arith

/-- Checked u64 subtraction: aborts on underflow. -/
def chkSub (a b : Nat) : Except MoveErr Nat :=
  if b ≤ a then .ok (a - b) else .error .arith

/-- Checked u64 multiplication: aborts when the product exceeds `u64Max`. -/
def chkMul (a b : Nat) : Except MoveErr Nat :=
  if a * b ≤ u64Max then .ok (a * b) else .error .arith

/-- Checked u64 division: aborts on a zero divisor. -/
def chkDiv (a b : Nat) : Except MoveErr Nat :=
  if b = 0 then .error .arith else .ok (a / b)

/-- `table::contains`. -/
def tblContains : List (Nat × α) → Nat → Bool
  | [], _ => false
  | p :: t, k => p.1 == k || tblContains t k

/-- `table::borrow` as an optional lookup (first matching key). -/
def tblGet : List (Nat × α) → Nat → Option α
  | [], _ => none
  | p :: t, k => if p.1 == k then some p.2 else tblGet t k

/-- `table::borrow_mut` followed by overwriting the borrowed value. -/
def tblSet : List (Nat × α) → Nat → α → List (Nat × α)
  | [], _, _ => []
  | p :: t, k, v => if p.1 == k then (k, v) :: tblSet t k v else p :: tblSet t k v

/-- `table::add`; the callers below only use it on absent keys (either
after an explicit `contains` test or guarded by `tblAddE`). -/
def tblAdd (t : List (Nat × α)) (k : Nat) (v : α) : List (Nat × α) :=
  t ++ [(k, v)]

/-- `table::add` with its runtime abort on an already-present key. -/
def tblAddE (t : List (Nat × α)) (k : Nat) (v : α) :
    Except MoveErr (List (Nat × α)) :=
  if tblContains t k then .error .invariant else .ok (tblAdd t k v)

/-- `table::remove` (drops every entry with the key; keys are unique in
every table built by the operations below). -/
def tblRemove : List (Nat × α) → Nat → List (Nat × α)
  | [], _ => []
  | p :: t, k => if p.1 == k then tblRemove t k else p :: tblRemove t k

/-! ### `suiforge::anti_bot` (Move) -/

/-- `anti_bot::BuyInfo`. -/
structure BuyInfo where
  total_bought : Nat
  last_buy_time : Nat
deriving DecidableEq, Repr

/-- `anti_bot::TokenProtection` (the `id : UID` field is dropped; the
object's identity plays no role in the claims). -/
structure TokenProtection where
  token_id : Nat
  owner : Nat
  trading_enabled : Bool
  enable_time : Nat
  cooldown_period : Nat
  max_buy_percent : Nat
  whitelist : List Nat
  blacklist : List (Nat × Bool)
  buy_tracking : List (Nat × BuyInfo)
deriving DecidableEq, Repr

/-- `anti_bot::is_whitelisted`. -/
def is_whitelisted (p : TokenProtection) (a : Nat) : Bool :=
  p.whitelist.contains a

/-- `anti_bot::create_protection`; `current_time` is
`clock::timestamp_ms(clock) / 1000` in seconds. -/
def create_protection (token_id cooldown_period max_buy_percent
    enable_time_delay current_time sender : Nat) :
    Except MoveErr TokenProtection :=
  match chkAdd current_time enable_time_delay with
  | .error e => .error e
  | .ok enable_time =>
      .ok { token_id := token_id
            owner := sender
            trading_enabled := false
            enable_time := enable_time
            cooldown_period := cooldown_period
            max_buy_percent := max_buy_percent
            whitelist := [sender]
            blacklist := []
            buy_tracking := [] }

/-- Overwrite the `buy_tracking` table of a protection object (the
in-place tracking update at the end of `check_can_buy`). -/
def withBuyTracking (p : TokenProtection) (bt : List (Nat × BuyInfo)) :
    TokenProtection :=
  { p with buy_tracking := bt }

/-- The in-place flag flip at the start of `check_can_buy`'s
trading-enabled section: when trading is still disabled and the enable
time has been reached, `trading_enabled` is set to `true` (and the
`TradingEnabled` event is emitted). -/
def flipIfDue (p : TokenProtection) (current_time : Nat) : TokenProtection :=
  if ¬ p.trading_enabled ∧ current_time ≥ p.enable_time then
    { p with trading_enabled := true }
  else p

/-- `anti_bot::check_can_buy`; `current_time` is the clock reading in
seconds. Returns the updated protection object and the boolean result;
an `.error` means the transaction aborts (no effect persists). The
protection object after the lazy flip is written `flipIfDue p
current_time`, mirroring the code's in-place mutation of `protection`
before the trading-enabled assert. -/
def check_can_buy (p : TokenProtection) (buyer amount total_supply
    current_time : Nat) : Except MoveErr (TokenProtection × Bool) :=
  if is_whitelisted p buyer then .ok (p, true)
  else if tblContains p.blacklist buyer then .ok (p, false)
  else
    if ¬ (flipIfDue p current_time).trading_enabled then
      .error (.abort 0) -- ETradingNotEnabled
    else
      match chkMul total_supply (flipIfDue p current_time).max_buy_percent with
      | .error e => .error e
      | .ok prod =>
        -- max_buy_amount := prod / 10000
        if ¬ amount ≤ prod / 10000 then .error (.abort 3) -- EExceedsMaxBuyLimit
        else
          match tblGet (flipIfDue p current_time).buy_tracking buyer with
          | some buy_info =>
            match chkSub current_time buy_info.last_buy_time with
            | .error e => .error e
            | .ok elapsed =>
              if ¬ elapsed ≥ (flipIfDue p current_time).cooldown_period then
                .error (.abort 4) -- EInsufficientCooldown
              else
                match chkAdd buy_info.total_bought amount with
                | .error e => .error e
                | .ok new_total =>
                  .ok (withBuyTracking (flipIfDue p current_time)
                        (tblSet (flipIfDue p current_time).buy_tracking
                          buyer ⟨new_total, current_time⟩), true)
          | none =>
            .ok (withBuyTracking (flipIfDue p current_time)
                  (tblAdd (flipIfDue p current_time).buy_tracking
                    buyer ⟨amount, current_time⟩), true)

/-- The buyer's previously tracked total (`total_bought` of the
buyer's `buy_tracking` record, 0 when there is none). -/
def trackedBought (p : TokenProtection) (buyer : Nat) : Nat :=
  match tblGet p.buy_tracking buyer with
  | some i => i.total_bought
  | none => 0

/-- `anti_bot::add_to_whitelist`. -/
def add_to_whitelist (p : TokenProtection) (address sender : Nat) :
    Except MoveErr TokenProtection :=
  if ¬ p.owner = sender then .error (.abort 0)
  else if is_whitelisted p address then
    .error (.abort 1) -- EAddressAlreadyWhitelisted
  else .ok { p with whitelist := p.whitelist ++ [address] }

/-- `vector::index_of`: index of the first occurrence, if any. -/
def vecIndexOf : List Nat → Nat → Option Nat
  | [], _ => none
  | a :: t, x => if a == x then some 0 else (vecIndexOf t x).map (· + 1)

/-- `anti_bot::remove_from_whitelist`; `vector::index_of` finds the first
occurrence and `vector::remove` deletes at that index. -/
def remove_from_whitelist (p : TokenProtection) (address sender : Nat) :
    Except MoveErr TokenProtection :=
  if ¬ p.owner = sender then .error (.abort 0)
  else
    match vecIndexOf p.whitelist address with
    | none => .error (.abort 2) -- EAddressNotWhitelisted
    | some i => .ok { p with whitelist := p.whitelist.eraseIdx i }

/-- `anti_bot::add_to_blacklist` (the unguarded `table::add` aborts on a
key that is already present). -/
def add_to_blacklist (p : TokenProtection) (address sender : Nat) :
    Except MoveErr TokenProtection :=
  if ¬ p.owner = sender then .error (.abort 0)
  else
    match tblAddE p.blacklist address true with
    | .error e => .error e
    | .ok bl => .ok { p with blacklist := bl }

/-- `anti_bot::remove_from_blacklist`. -/
def remove_from_blacklist (p : TokenProtection) (address sender : Nat) :
    Except MoveErr TokenProtection :=
  if ¬ p.owner = sender then .error (.abort 0)
  else if ¬ tblContains p.blacklist address then
    .error (.abort 2) -- reuses EAddressNotWhitelisted
  else .ok { p with blacklist := tblRemove p.blacklist address }

/-- `anti_bot::enable_trading`. -/
def enable_trading (p : TokenProtection) (sender : Nat) :
    Except MoveErr TokenProtection :=
  if ¬ p.owner = sender then .error (.abort 0)
  else .ok { p with trading_enabled := true }

/-- `anti_bot::update_max_buy_percent`. -/
def update_max_buy_percent (p : TokenProtection) (new_percent sender : Nat) :
    Except MoveErr TokenProtection :=
  if ¬ p.owner = sender then .error (.abort 0)
  else .ok { p with max_buy_percent := new_percent }

/-- `anti_bot::update_cooldown_period`. -/
def update_cooldown_period (p : TokenProtection) (new_period sender : Nat) :
    Except MoveErr TokenProtection :=
  if ¬ p.owner = sender then .error (.abort 0)
  else .ok { p with cooldown_period := new_period }

/-- State of the shared `TokenProtection` object persisted after a call
whose only mutable object is the protection: the new state on success,
the untouched pre-state when the transaction aborts. -/
def persistP (p : TokenProtection) (r : Except MoveErr TokenProtection) :
    TokenProtection :=
  match r with
  | .ok q => q
  | .error _ => p

/-- Same as `persistP` for `check_can_buy`, which also returns a bool. -/
def persistPB (p : TokenProtection)
    (r : Except MoveErr (TokenProtection × Bool)) : TokenProtection :=
  match r with
  | .ok (q, _) => q
  | .error _ => p

/-! ### `suiforge::liquidity_locker` (Move) -/

/-- `liquidity_locker::Lock`; the held `Balance` is modelled by its u64
value, the coin type by its type-address. -/
structure LLock where
  token_balance : Nat
  token_type : Nat
  locker : Nat
  unlock_time : Nat
deriving DecidableEq, Repr

/-- `liquidity_locker::LiquidityLocker` (shared object; `id` dropped). -/
structure LiquidityLocker where
  locks : List (Nat × LLock)
  min_lock_duration : Nat
  lock_count : Nat
deriving DecidableEq, Repr

/-- The locker created by `liquidity_locker::init`: empty lock table and
a 30-day (in seconds) minimum lock duration. -/
def lockerInit : LiquidityLocker :=
  { locks := [], min_lock_duration := 30 * 24 * 60 * 60, lock_count := 0 }

/-- `liquidity_locker::lock_liquidity`. `current_time` is the clock in
seconds, `lp_value` the value of the deposited coin, `token_type` the
address of `CoinType`, and `lock_addr` the address of the freshly
created lock id object (fresh object ids never collide with table keys;
the `tblAddE` guard keeps the model honest about `table::add`). -/
def lock_liquidity (lk : LiquidityLocker) (current_time lp_value token_type
    lock_duration sender lock_addr : Nat) : Except MoveErr LiquidityLocker :=
  if ¬ lock_duration ≥ lk.min_lock_duration then
    .error (.abort 1) -- EInvalidLockDuration
  else
    match chkAdd current_time lock_duration with
    | .error e => .error e
    | .ok unlock_time =>
      let lock : LLock :=
        { token_balance := lp_value, token_type := token_type
          locker := sender, unlock_time := unlock_time }
      match tblAddE lk.locks lock_addr lock with
      | .error e => .error e
      | .ok locks =>
        match chkAdd lk.lock_count 1 with
        | .error e => .error e
        | .ok n => .ok { lk with locks := locks, lock_count := n }

/-- `liquidity_locker::unlock_liquidity`; on success returns the new
locker state and the full token balance transferred back to the lock's
owner. An `.error` means the transaction aborts (lock not removed). -/
def unlock_liquidity (lk : LiquidityLocker) (current_time lock_id sender :
    Nat) : Except MoveErr (LiquidityLocker × Nat) :=
  if ¬ tblContains lk.locks lock_id then .error (.abort 3) -- ELockNotFound
  else
    match tblGet lk.locks lock_id with
    | none => .error .invariant
    | some lock =>
      let locks := tblRemove lk.locks lock_id
      if ¬ lock.locker = sender then .error (.abort 2) -- EInvalidLock
      else if ¬ current_time ≥ lock.unlock_time then
        .error (.abort 0) -- ELockStillActive
      else .ok ({ lk with locks := locks }, lock.token_balance)

/-- `liquidity_locker::update_min_lock_duration` (requires the
`AdminCap`, which only its holder can present). -/
def update_min_lock_duration (lk : LiquidityLocker) (new_duration : Nat) :
    LiquidityLocker :=
  { lk with min_lock_duration := new_duration }

/-- Locker state persisted after an `unlock_liquidity` call: the new
state on success, the pre-state when the transaction aborts. -/
def persistL (lk : LiquidityLocker)
    (r : Except MoveErr (LiquidityLocker × Nat)) : LiquidityLocker :=
  match r with
  | .ok (lk2, _) => lk2
  | .error _ => lk

/-! ### `suiforge::fee_distributor` (Move) -/

/-- `fee_distributor::FeeDistributor` (balances modelled by value). -/
structure FeeDistributor where
  protocol_fee_bps : Nat
  creator_fee_bps : Nat
  protocol_fee_recipient : Nat
  protocol_balance : Nat
  total_fees_collected : Nat
deriving DecidableEq, Repr

/-- `fee_distributor::TokenFeeConfig`. -/
structure TokenFeeConfig where
  token_id : Nat
  creator : Nat
  creator_balance : Nat
  fees_collected : Nat
deriving DecidableEq, Repr

/-- The distributor created by `fee_distributor::init`: 200 bps to the
protocol, 800 bps to the creator, deployer as recipient. -/
def distributorInit (sender : Nat) : FeeDistributor :=
  { protocol_fee_bps := 200, creator_fee_bps := 800
    protocol_fee_recipient := sender, protocol_balance := 0
    total_fees_collected := 0 }

/-- `fee_distributor::create_token_fee_config`. -/
def create_token_fee_config (token_id creator : Nat) : TokenFeeConfig :=
  { token_id := token_id, creator := creator, creator_balance := 0
    fees_collected := 0 }

/-- `fee_distributor::collect_fees`; `fee_amount` is the value of the
`Coin<SUI>` argument. `balance::split` beyond the coin's value would
abort (`.invariant`), and every u64 operation is overflow-checked. -/
def collect_fees (d : FeeDistributor) (c : TokenFeeConfig)
    (fee_amount : Nat) : Except MoveErr (FeeDistributor × TokenFeeConfig) :=
  match chkAdd d.protocol_fee_bps d.creator_fee_bps with
  | .error e => .error e
  | .ok total_bps =>
    match chkMul fee_amount d.protocol_fee_bps with
    | .error e => .error e
    | .ok prod =>
      match chkDiv prod total_bps with
      | .error e => .error e
      | .ok protocol_amount =>
        if ¬ protocol_amount ≤ fee_amount then .error .invariant
        else
          -- creator_amount := fee_amount - protocol_amount
          match chkAdd d.protocol_balance protocol_amount with
          | .error e => .error e
          | .ok pbal =>
            match chkAdd c.creator_balance (fee_amount - protocol_amount) with
            | .error e => .error e
            | .ok cbal =>
              match chkAdd d.total_fees_collected fee_amount with
              | .error e => .error e
              | .ok dtot =>
                match chkAdd c.fees_collected fee_amount with
                | .error e => .error e
                | .ok ctot =>
                  .ok ({ d with protocol_balance := pbal,
                                total_fees_collected := dtot },
                       { c with creator_balance := cbal,
                                fees_collected := ctot })

/-- `fee_distributor::withdraw_protocol_fees` (AdminCap-gated); returns
the new state and the amount transferred to the recipient. -/
def withdraw_protocol_fees (d : FeeDistributor) :
    Except MoveErr (FeeDistributor × Nat) :=
  -- amount := balance::value(protocol_balance)
  if ¬ d.protocol_balance > 0 then .error (.abort 1) -- EInsufficientBalance
  else .ok ({ d with protocol_balance := 0 }, d.protocol_balance)

/-- `fee_distributor::withdraw_creator_fees`; returns the new config and
the amount transferred to the creator. -/
def withdraw_creator_fees (c : TokenFeeConfig) (sender : Nat) :
    Except MoveErr (TokenFeeConfig × Nat) :=
  if ¬ c.creator = sender then .error (.abort 0)
  else
    let amount := c.creator_balance
    if ¬ amount > 0 then .error (.abort 1) -- EInsufficientBalance
    else .ok ({ c with creator_balance := 0 }, amount)

/-- `fee_distributor::update_fee_distribution` (AdminCap-gated). -/
def update_fee_distribution (d : FeeDistributor)
    (protocol_fee_bps creator_fee_bps : Nat) : Except MoveErr FeeDistributor :=
  match chkAdd protocol_fee_bps creator_fee_bps with
  | .error e => .error e
  | .ok s =>
    if ¬ s = 1000 then .error (.abort 0) -- EInvalidFeeShare
    else .ok { d with protocol_fee_bps := protocol_fee_bps,
                      creator_fee_bps := creator_fee_bps }

/-- `fee_distributor::update_protocol_fee_recipient` (AdminCap-gated). -/
def update_protocol_fee_recipient (d : FeeDistributor)
    (new_recipient : Nat) : FeeDistributor :=
  { d with protocol_fee_recipient := new_recipient }

/-- Distributor states reachable from module initialization through the
module's entry functions (only successful, i.e. non-aborting, calls
change on-chain state). `collect_fees` is closed over arbitrary token
configs and fee coins, the admin functions over arbitrary arguments. -/
inductive ReachableD : FeeDistributor → Prop where
  | init (sender : Nat) : ReachableD (distributorInit sender)
  | collect {d d2 : FeeDistributor} {c c2 : TokenFeeConfig} {fee : Nat}
      (hd : ReachableD d) (h : collect_fees d c fee = .ok (d2, c2)) :
      ReachableD d2
  | withdraw {d d2 : FeeDistributor} {amt : Nat} (hd : ReachableD d)
      (h : withdraw_protocol_fees d = .ok (d2, amt)) : ReachableD d2
  | update {d d2 : FeeDistributor} {p c : Nat} (hd : ReachableD d)
      (h : update_fee_distribution d p c = .ok d2) : ReachableD d2
  | recipient {d : FeeDistributor} (r : Nat) (hd : ReachableD d) :
      ReachableD (update_protocol_fee_recipient d r)

/-! ### `backend/src/ai/processors/text_parser.js` -/

/-- A character matched by the JavaScript regex class `\w`
(`[A-Za-z0-9_]` on the ASCII inputs handled here). -/
def isWordChar (c : Char) : Bool :=
  c.isAlphanum || c == '_'

/-- JavaScript `String.prototype.trim`: strip whitespace from both ends
(on a char list). -/
def trimChars (s : List Char) : List Char :=
  ((s.dropWhile Char.isWhitespace).reverse.dropWhile Char.isWhitespace).reverse

/-- The symbol pipeline of `validateTokenParams`:
`.trim().toUpperCase().replace(/[^\w]/g, '')`. -/
def normalizeSymbol (s : String) : String :=
  String.mk (((trimChars s.toList).map Char.toUpper).filter isWordChar)

/-- The name pipeline of `validateTokenParams`:
`.trim().replace(/[^\w\s]/g, '')` (keeps word chars and whitespace). -/
def normalizeName (s : String) : String :=
  String.mk ((trimChars s.toList).filter
    (fun c => isWordChar c || c.isWhitespace))

/-- JavaScript truthiness of an optional string field (`null`,
`undefined` and `""` are falsy). -/
def truthy (o : Option String) : Bool :=
  match o with
  | none => false
  | some s => ¬ s.isEmpty

/-- The structured output of the parsing collaborator
(`parseTokenRequest`), which never throws: it catches internally and
returns `isTokenRequest = false, confidence = 0` on failure. -/
structure ParsedRequest where
  isTokenRequest : Bool
  confidence : Nat
  tokenName : Option String
  tokenSymbol : Option String
  memeTheme : Option String
  emoji : Option String
deriving DecidableEq, Repr

/-- The result record built by `validateTokenParams` (fields start out
`null` / `isValid = true` and are filled or overwritten in order). -/
structure ValidatedParams where
  isValid : Bool
  reason : Option String
  tokenName : Option String
  tokenSymbol : Option String
  memeTheme : Option String
  emoji : Option String
deriving DecidableEq, Repr

/-- The `defaultEmojis` pool of `validateTokenParams` (the source file
stores the eight emoji literals in a mangled encoding; their identity is
irrelevant to every claim). -/
def defaultEmojis : List String :=
  ["e0", "e1", "e2", "e3", "e4", "e5", "e6", "e7"]

/-- `validateTokenParams`; `randIdx` stands for the
`Math.floor(Math.random() * defaultEmojis.length)` draw. -/
def validateTokenParams (tp : ParsedRequest) (randIdx : Nat) :
    ValidatedParams :=
  if ¬ tp.isTokenRequest = true ∨ tp.confidence < 70 then
    { isValid := false
      reason := some "Not a token request or low confidence"
      tokenName := none, tokenSymbol := none, memeTheme := none
      emoji := none }
  else if ¬ truthy tp.tokenName then
    { isValid := false, reason := some "Missing token name"
      tokenName := none, tokenSymbol := none, memeTheme := none
      emoji := none }
  else
    let name := normalizeName (tp.tokenName.getD "")
    if ¬ truthy tp.tokenSymbol then
      { isValid := false, reason := some "Missing token symbol"
        tokenName := some name, tokenSymbol := none, memeTheme := none
        emoji := none }
    else
      let sym := normalizeSymbol (tp.tokenSymbol.getD "")
      if sym.length < 2 ∨ sym.length > 5 then
        { isValid := false
          reason := some "Token symbol must be 2-5 characters"
          tokenName := some name, tokenSymbol := some sym
          memeTheme := none, emoji := none }
      else
        let theme := match tp.memeTheme with
          | some t => if ¬ t.isEmpty then String.mk (trimChars t.toList)
                      else "Generic meme token"
          | none => "Generic meme token"
        let emoji := match tp.emoji with
          | some e => if ¬ e.isEmpty then e
                      else defaultEmojis.getD (randIdx % 8) "e0"
          | none => defaultEmojis.getD (randIdx % 8) "e0"
        { isValid := true, reason := none
          tokenName := some name, tokenSymbol := some sym
          memeTheme := some theme, emoji := some emoji }

/-! ### `backend/src/ai/listeners/telegram.js` rate limiter -/

/-- `RATE_LIMIT.maxRequests`. -/
def maxRequests : Nat := 3

/-- `RATE_LIMIT.timeWindow` (seconds). -/
def timeWindow : Nat := 3600

/-- `RATE_LIMIT.cooldown` (seconds). -/
def cooldown : Nat := 86400

/-- The per-user record held in `userActivityTracker`. -/
structure UserData where
  count : Nat
  firstRequest : Nat
  isCoolingDown : Bool
  cooldownUntil : Nat
deriving DecidableEq, Repr

/-- `isRateLimited`: given the user's tracker entry (`none` when the map
has no entry) and `now` in seconds, returns the decision and the entry
stored back into the map. JavaScript computes `now - firstRequest` with
signed arithmetic, but a negative difference and the truncated-to-zero
`Nat` difference fall in the same `< timeWindow` branch, so `Nat`
subtraction is faithful for every input. -/
def isRateLimited (st : Option UserData) (now : Nat) : Bool × UserData :=
  match st with
  | none => (false, ⟨1, now, false, 0⟩)
  | some u =>
    if u.isCoolingDown then
      if now < u.cooldownUntil then (true, u)
      else (false, ⟨1, now, false, u.cooldownUntil⟩)
    else if now - u.firstRequest < timeWindow then
      if u.count ≥ maxRequests then
        (true, ⟨u.count, u.firstRequest, true, now + cooldown⟩)
      else (false, ⟨u.count + 1, u.firstRequest, false, u.cooldownUntil⟩)
    else (false, ⟨1, now, false, u.cooldownUntil⟩)

/-! ### `backend/src/ai/deployer.js` -/

/-- Outcome of the on-chain token-creation transaction inside
`deployToken`: `.error` when `createSigner` or
`signAndExecuteTransactionBlock` throws; otherwise the transaction
digest together with the token id that `extractTokenIdFromEvents`
recovers from the events (`none` when extraction fails, which
`deployToken` turns into a thrown-and-caught error). -/
structure CreateOutcome where
  digest : String
  extractedTokenId : Option Nat
deriving DecidableEq, Repr

/-- Results of the awaited collaborators of one
`processTokenDeployment` run. `setupAntiBot`, `setupFeeDistribution`,
`provideLiquidity` and `lockLiquidity` all wrap their bodies in
try/catch and resolve with a `success` flag instead of throwing, so
each is a `Bool`; `generateTokenMetadata` and `generateTokenImagery`
also never throw (they fall back internally) and do not influence
control flow. -/
structure DeployEnv where
  parsed : ParsedRequest
  createToken : Except String CreateOutcome
  antiBotOk : Bool
  feeConfigOk : Bool
  liquidityOk : Bool
  lockOk : Bool
deriving Repr

/-- The object `deployToken` resolves with (the `tokenParams`
passthrough field is omitted). -/
structure DeployTokenResult where
  success : Bool
  tokenId : Option Nat
  transactionDigest : Option String
  error : Option String
deriving DecidableEq, Repr

/-- `deployToken`: creates the token on chain, extracts the token id,
then awaits `setupAntiBot` and `setupFeeDistribution` — whose result
objects it discards — and resolves with `success = true`; any throw
inside the try block is caught and resolved as `success = false`. -/
def deployToken (env : DeployEnv) : DeployTokenResult :=
  match env.createToken with
  | .error e =>
    { success := false, tokenId := none, transactionDigest := none
      error := some e }
  | .ok outcome =>
    match outcome.extractedTokenId with
    | none =>
      { success := false, tokenId := none, transactionDigest := none
        error := some "Failed to extract token ID from events" }
    | some tid =>
      let _antiBotResult := env.antiBotOk     -- awaited, result ignored
      let _feeConfigResult := env.feeConfigOk -- awaited, result ignored
      { success := true, tokenId := some tid
        transactionDigest := some outcome.digest, error := none }

/-- The `DeploymentResult` object `processTokenDeployment` resolves
with (metadata passthrough fields are omitted). -/
structure DeploymentResult where
  success : Bool
  reason : Option String
  tokenId : Option Nat
  transactionDigest : Option String
  liquidityAdded : Option Bool
  liquidityLocked : Option Bool
  source : String
  userId : String
deriving DecidableEq, Repr

/-- `processTokenDeployment`: parse, validate, generate metadata and
imagery (non-fatal), deploy, then add and lock liquidity — recording
the liquidity and lock outcomes in fields while resolving with
`success = true` whenever `deployToken` succeeded. -/
def processTokenDeployment (env : DeployEnv) (randIdx : Nat)
    (source userId : String) : DeploymentResult :=
  if ¬ env.parsed.isTokenRequest = true ∨ env.parsed.confidence < 70 then
    { success := false
      reason := some "Not a valid token request or low confidence"
      tokenId := none, transactionDigest := none, liquidityAdded := none
      liquidityLocked := none, source := source, userId := userId }
  else
    let validated := validateTokenParams env.parsed randIdx
    if ¬ validated.isValid then
      { success := false, reason := validated.reason
        tokenId := none, transactionDigest := none
        liquidityAdded := none, liquidityLocked := none
        source := source, userId := userId }
    else
      let dep := deployToken env
      if ¬ dep.success then
        { success := false
          reason := some ("Deployment failed: " ++ (dep.error.getD ""))
          tokenId := none, transactionDigest := none
          liquidityAdded := none, liquidityLocked := none
          source := source, userId := userId }
      else
        { success := true, reason := none
          tokenId := dep.tokenId
          transactionDigest := dep.transactionDigest
          liquidityAdded := some env.liquidityOk
          liquidityLocked := some env.lockOk
          source := source, userId := userId }

/-! ### Concrete instances used in counterexamples and witnesses -/

/-- A parsed request whose symbol is `"ab$"` (normalizing to `"AB"`). -/
def exReq : ParsedRequest :=
  { isTokenRequest := true, confidence := 85, tokenName := some "CatMoon"
    tokenSymbol := some "ab$", memeTheme := some "cats", emoji := some "R" }

/-- A parsed request whose symbol normalizes to the 6-character
`"ABCDEF"` and is therefore rejected. -/
def exReq7 : ParsedRequest :=
  { isTokenRequest := true, confidence := 90, tokenName := some "Dog"
    tokenSymbol := some "ABCDEF", memeTheme := none, emoji := none }

/-- A deployment run in which token creation succeeds but anti-bot
setup, liquidity provisioning and liquidity locking all report
unsuccessful results. -/
def exEnv : DeployEnv :=
  { parsed := exReq, createToken := .ok ⟨"0xdigest", some 77⟩
    antiBotOk := false, feeConfigOk := true, liquidityOk := false
    lockOk := false }

/-- A protection object whose whitelist holds the owner `1` and the
buyer `5`, with no tracked buys. -/
def pWl : TokenProtection :=
  { token_id := 1, owner := 1, trading_enabled := false, enable_time := 100
    cooldown_period := 300, max_buy_percent := 500, whitelist := [1, 5]
    blacklist := [], buy_tracking := [] }

/-- A protection object with a zero max-buy percentage: every
non-whitelisted buy aborts on the buy-limit check. -/
def pCap : TokenProtection :=
  { token_id := 1, owner := 1, trading_enabled := false, enable_time := 100
    cooldown_period := 300, max_buy_percent := 0, whitelist := [1]
    blacklist := [], buy_tracking := [] }

/-- A protection object with a 5% (500 bps) max-buy cap and a 300 s
cooldown, trading enabled from time 0. -/
def p9 : TokenProtection :=
  { token_id := 1, owner := 1, trading_enabled := false, enable_time := 0
    cooldown_period := 300, max_buy_percent := 500, whitelist := [1]
    blacklist := [], buy_tracking := [] }

/-- `p9` after buyer `5` buys 500 of a 10000 supply at time 1000. -/
def p9a : TokenProtection :=
  { p9 with trading_enabled := true, buy_tracking := [(5, ⟨500, 1000⟩)] }

/-- `p9a` after buyer `5` buys another 500 at time 2000. -/
def p9b : TokenProtection :=
  { p9 with trading_enabled := true, buy_tracking := [(5, ⟨1000, 2000⟩)] }

/-- The locker after a 1000-unit lock placed at time 1000 for the
minimum 30-day duration under lock id 42 by depositor 9. -/
def lkA : LiquidityLocker :=
  { locks := [(42, ⟨1000, 7, 9, 1000 + 2592000⟩)]
    min_lock_duration := 2592000, lock_count := 1 }

/-- `lkA` after lock 42 is unlocked. -/
def lkB : LiquidityLocker :=
  { locks := [], min_lock_duration := 2592000, lock_count := 1 }

/-- The distributor after collecting a 1001-unit fee from the initial
200/800 configuration (integer split: 200 to the protocol). -/
def cDist6 : FeeDistributor :=
  { protocol_fee_bps := 200, creator_fee_bps := 800
    protocol_fee_recipient := 3, protocol_balance := 200
    total_fees_collected := 1001 }

/-- The token fee config after the same 1001-unit collection (801 to
the creator: the truncation remainder is on the creator side). -/
def cCfg6 : TokenFeeConfig :=
  { token_id := 1, creator := 2, creator_balance := 801
    fees_collected := 1001 }

/-! ### Helper lemmas on the checked arithmetic and tables -/

theorem chkAdd_ok {a b c : Nat} (h : chkAdd a b = .ok c) :
    c = a + b ∧ a + b ≤ u64Max := by
  unfold chkAdd at h
  split at h
  · exact ⟨(Except.ok.inj h).symm, by assumption⟩
  · exact Except.noConfusion h

theorem chkSub_ok {a b c : Nat} (h : chkSub a b = .ok c) :
    c = a - b ∧ b ≤ a := by
  unfold chkSub at h
  split at h
  · exact ⟨(Except.ok.inj h).symm, by assumption⟩
  · exact Except.noConfusion h

theorem chkMul_ok {a b c : Nat} (h : chkMul a b = .ok c) :
    c = a * b ∧ a * b ≤ u64Max := by
  unfold chkMul at h
  split at h
  · exact ⟨(Except.ok.inj h).symm, by assumption⟩
  · exact Except.noConfusion h

theorem chkDiv_ok {a b c : Nat} (h : chkDiv a b = .ok c) :
    c = a / b ∧ b ≠ 0 := by
  unfold chkDiv at h
  split at h
  · exact Except.noConfusion h
  · exact ⟨(Except.ok.inj h).symm, by assumption⟩

theorem tblGet_none {α : Type _} {t : List (Nat × α)} {k : Nat}
    (h : tblContains t k = false) : tblGet t k = none := by
  induction t with
  | nil => rfl
  | cons p t ih =>
    simp only [tblContains, Bool.or_eq_false_iff] at h
    simp [tblGet, h.1, ih h.2]

theorem tblContains_of_get {α : Type _} {t : List (Nat × α)} {k : Nat}
    {v : α} (h : tblGet t k = some v) : tblContains t k = true := by
  by_contra hc
  rw [tblGet_none (Bool.eq_false_iff.mpr hc)] at h
  exact Option.noConfusion h

theorem tblGet_tblAdd_self {α : Type _} {t : List (Nat × α)} {k : Nat}
    {v : α} (h : tblContains t k = false) : tblGet (tblAdd t k v) k = some v := by
  induction t with
  | nil => simp [tblAdd, tblGet]
  | cons p t ih =>
    simp only [tblContains, Bool.or_eq_false_iff] at h
    simpa [tblAdd, tblGet, h.1] using ih h.2

theorem tblGet_tblSet_self {α : Type _} {t : List (Nat × α)} {k : Nat}
    {v w : α} (h : tblGet t k = some w) : tblGet (tblSet t k v) k = some v := by
  induction t with
  | nil => exact Option.noConfusion h
  | cons p t ih =>
    by_cases hk : (p.1 == k) = true
    · simp [tblSet, tblGet, hk]
    · rw [tblGet, if_neg hk] at h
      simp only [tblSet, hk, if_false]
      simp only [tblGet, hk, if_false]
      exact ih h

theorem tblContains_tblRemove_self {α : Type _} (t : List (Nat × α))
    (k : Nat) : tblContains (tblRemove t k) k = false := by
  induction t with
  | nil => rfl
  | cons p t ih =>
    by_cases hk : (p.1 == k) = true
    · simpa [tblRemove, hk] using ih
    · simpa [tblRemove, tblContains, hk] using ih

theorem vecIndexOf_none {t : List Nat} {x : Nat}
    (h : t.contains x = false) : vecIndexOf t x = none := by
  induction t with
  | nil => rfl
  | cons a t ih =>
    simp only [List.contains_cons, Bool.or_eq_false_iff,
      beq_eq_false_iff_ne, ne_eq] at h
    have ha : (a == x) = false :=
      beq_eq_false_iff_ne.mpr (fun hax => h.1 hax.symm)
    simp [vecIndexOf, ha, ih h.2]

theorem tblNotContains_of_get_none {α : Type _} {t : List (Nat × α)}
    {k : Nat} (h : tblGet t k = none) : tblContains t k = false := by
  induction t with
  | nil => rfl
  | cons p t ih =>
    by_cases hk : (p.1 == k) = true
    · rw [tblGet, if_pos hk] at h
      exact Option.noConfusion h
    · rw [tblGet, if_neg hk] at h
      rw [tblContains, Bool.or_eq_false_iff]
      exact ⟨Bool.eq_false_iff.mpr hk, ih h⟩

/-! ### Helper lemmas on the anti-bot engine -/

theorem flipIfDue_buy_tracking (p : TokenProtection) (n : Nat) :
    (flipIfDue p n).buy_tracking = p.buy_tracking := by
  unfold flipIfDue; split <;> rfl

theorem flipIfDue_max_buy_percent (p : TokenProtection) (n : Nat) :
    (flipIfDue p n).max_buy_percent = p.max_buy_percent := by
  unfold flipIfDue; split <;> rfl

theorem flipIfDue_cooldown_period (p : TokenProtection) (n : Nat) :
    (flipIfDue p n).cooldown_period = p.cooldown_period := by
  unfold flipIfDue; split <;> rfl

theorem flipIfDue_te (p : TokenProtection) (n : Nat) :
    (flipIfDue p n).trading_enabled =
      (p.trading_enabled || decide (p.enable_time ≤ n)) := by
  unfold flipIfDue
  by_cases hte : p.trading_enabled = true
  · rw [if_neg] <;> simp [hte]
  · by_cases hn : p.enable_time ≤ n
    · rw [if_pos ⟨hte, hn⟩]
      simp [Bool.eq_false_iff.mpr hte, hn]
    · rw [if_neg (by rintro ⟨_, hge⟩; omega)]
      simp [Bool.eq_false_iff.mpr hte, hn]

theorem ccb_whitelisted (p : TokenProtection) (buyer a s n : Nat)
    (h : is_whitelisted p buyer = true) :
    check_can_buy p buyer a s n = .ok (p, true) := by
  unfold check_can_buy
  rw [if_pos h]

theorem ccb_ok_te {p q : TokenProtection} {buyer a s n : Nat} {r : Bool}
    (h : check_can_buy p buyer a s n = .ok (q, r)) :
    q.trading_enabled = p.trading_enabled ∨ q.trading_enabled = true := by
  unfold check_can_buy at h
  split at h
  · left
    injection h with h
    injection h with h1 h2
    rw [← h1]
  · split at h
    · left
      injection h with h
      injection h with h1 h2
      rw [← h1]
    · split at h
      · exact Except.noConfusion h
      · next hte =>
          push_neg at hte
          split at h
          · exact Except.noConfusion h
          · split at h
            · exact Except.noConfusion h
            · split at h
              · split at h
                · exact Except.noConfusion h
                · split at h
                  · exact Except.noConfusion h
                  · split at h
                    · exact Except.noConfusion h
                    · right
                      injection h with h
                      injection h with h1 h2
                      rw [← h1]
                      exact hte
              · right
                injection h with h
                injection h with h1 h2
                rw [← h1]
                exact hte

theorem ccb_before_enable (p : TokenProtection) (buyer a s n : Nat)
    (hte : p.trading_enabled = false) (hwl : is_whitelisted p buyer = false)
    (hbl : tblContains p.blacklist buyer = false) (hn : n < p.enable_time) :
    check_can_buy p buyer a s n = .error (.abort 0) := by
  unfold check_can_buy
  rw [if_neg (by simp [hwl]), if_neg (by simp [hbl]),
    if_pos (by rw [flipIfDue_te]; simp [hte]; omega)]

theorem ccb_flip {p q : TokenProtection} {buyer a s n : Nat} {r : Bool}
    (hwl : is_whitelisted p buyer = false)
    (hbl : tblContains p.blacklist buyer = false)
    (hn : p.enable_time ≤ n)
    (h : check_can_buy p buyer a s n = .ok (q, r)) :
    q.trading_enabled = true ∧ r = true := by
  unfold check_can_buy at h
  rw [if_neg (by simp [hwl]), if_neg (by simp [hbl])] at h
  have hft : (flipIfDue p n).trading_enabled = true := by
    rw [flipIfDue_te]; simp [hn]
  split at h
  · exact Except.noConfusion h
  · split at h
    · exact Except.noConfusion h
    · split at h
      · exact Except.noConfusion h
      · split at h
        · split at h
          · exact Except.noConfusion h
          · split at h
            · exact Except.noConfusion h
            · split at h
              · exact Except.noConfusion h
              · injection h with h
                injection h with h1 h2
                rw [← h1, ← h2]
                exact ⟨hft, rfl⟩
        · injection h with h
          injection h with h1 h2
          rw [← h1, ← h2]
          exact ⟨hft, rfl⟩

theorem ccb_upsert {p q : TokenProtection} (buyer a s n : Nat)
    (hwl : is_whitelisted p buyer = false)
    (h : check_can_buy p buyer a s n = .ok (q, true)) :
    tblGet q.buy_tracking buyer = some ⟨trackedBought p buyer + a, n⟩ := by
  unfold check_can_buy at h
  rw [if_neg (by simp [hwl])] at h
  split at h
  · injection h with h
    injection h with h1 h2
    exact Bool.noConfusion h2
  · split at h
    · exact Except.noConfusion h
    · split at h
      · exact Except.noConfusion h
      · split at h
        · exact Except.noConfusion h
        · split at h
          next buy_info hbi =>
            split at h
            · exact Except.noConfusion h
            · next elapsed hel =>
                split at h
                · exact Except.noConfusion h
                · split at h
                  · exact Except.noConfusion h
                  · next new_total hnt =>
                      injection h with h
                      injection h with h1 h2
                      rw [flipIfDue_buy_tracking] at hbi
                      obtain ⟨hN, -⟩ := chkAdd_ok hnt
                      rw [← h1]
                      unfold withBuyTracking
                      show tblGet (tblSet (flipIfDue p n).buy_tracking buyer
                        ⟨new_total, n⟩) buyer = _
                      rw [flipIfDue_buy_tracking]
                      rw [tblGet_tblSet_self hbi]
                      unfold trackedBought
                      rw [hbi, hN]
          next hbi =>
            injection h with h
            injection h with h1 h2
            rw [flipIfDue_buy_tracking] at hbi
            rw [← h1]
            unfold withBuyTracking
            show tblGet (tblAdd (flipIfDue p n).buy_tracking buyer
              ⟨a, n⟩) buyer = _
            rw [flipIfDue_buy_tracking]
            rw [tblGet_tblAdd_self (tblNotContains_of_get_none hbi)]
            simp [trackedBought, hbi]

theorem ccb_cap {p q : TokenProtection} (buyer a s n : Nat)
    (hwl : is_whitelisted p buyer = false)
    (h : check_can_buy p buyer a s n = .ok (q, true)) :
    a ≤ s * p.max_buy_percent / 10000 := by
  unfold check_can_buy at h
  rw [if_neg (by simp [hwl])] at h
  split at h
  · injection h with h
    injection h with h1 h2
    exact Bool.noConfusion h2
  · split at h
    · exact Except.noConfusion h
    · split at h
      · exact Except.noConfusion h
      · next prod hprod =>
          split at h
          · exact Except.noConfusion h
          · next hcap =>
              push_neg at hcap
              obtain ⟨hP, -⟩ := chkMul_ok hprod
              rw [flipIfDue_max_buy_percent] at hP
              rw [← hP]
              exact hcap

theorem te_enable_trading (p : TokenProtection) (s : Nat)
    (ht : p.trading_enabled = true) :
    (persistP p (enable_trading p s)).trading_enabled = true := by
  unfold enable_trading
  by_cases h1 : ¬ p.owner = s
  · rw [if_pos h1]; exact ht
  · rw [if_neg h1]; rfl

theorem te_add_wl (p : TokenProtection) (a s : Nat) :
    (persistP p (add_to_whitelist p a s)).trading_enabled =
      p.trading_enabled := by
  unfold add_to_whitelist
  by_cases h1 : ¬ p.owner = s
  · rw [if_pos h1]; rfl
  · rw [if_neg h1]
    by_cases h2 : is_whitelisted p a = true
    · rw [if_pos h2]; rfl
    · rw [if_neg h2]; rfl

theorem te_remove_wl (p : TokenProtection) (a s : Nat) :
    (persistP p (remove_from_whitelist p a s)).trading_enabled =
      p.trading_enabled := by
  unfold remove_from_whitelist
  by_cases h1 : ¬ p.owner = s
  · rw [if_pos h1]; rfl
  · rw [if_neg h1]
    cases hIdx : vecIndexOf p.whitelist a <;> rfl

theorem te_add_bl (p : TokenProtection) (a s : Nat) :
    (persistP p (add_to_blacklist p a s)).trading_enabled =
      p.trading_enabled := by
  unfold add_to_blacklist
  by_cases h1 : ¬ p.owner = s
  · rw [if_pos h1]; rfl
  · rw [if_neg h1]
    cases hE : tblAddE p.blacklist a true <;> rfl

theorem te_remove_bl (p : TokenProtection) (a s : Nat) :
    (persistP p (remove_from_blacklist p a s)).trading_enabled =
      p.trading_enabled := by
  unfold remove_from_blacklist
  by_cases h1 : ¬ p.owner = s
  · rw [if_pos h1]; rfl
  · rw [if_neg h1]
    by_cases h2 : ¬ tblContains p.blacklist a = true
    · rw [if_pos h2]; rfl
    · rw [if_neg h2]; rfl

theorem te_update_mbp (p : TokenProtection) (v s : Nat) :
    (persistP p (update_max_buy_percent p v s)).trading_enabled =
      p.trading_enabled := by
  unfold update_max_buy_percent
  by_cases h1 : ¬ p.owner = s
  · rw [if_pos h1]; rfl
  · rw [if_neg h1]; rfl

theorem te_update_cd (p : TokenProtection) (v s : Nat) :
    (persistP p (update_cooldown_period p v s)).trading_enabled =
      p.trading_enabled := by
  unfold update_cooldown_period
  by_cases h1 : ¬ p.owner = s
  · rw [if_pos h1]; rfl
  · rw [if_neg h1]; rfl

theorem te_ccb (p : TokenProtection) (buyer a s n : Nat)
    (ht : p.trading_enabled = true) :
    (persistPB p (check_can_buy p buyer a s n)).trading_enabled = true := by
  unfold persistPB
  cases hq : check_can_buy p buyer a s n with
  | error e => exact ht
  | ok qr =>
    rcases qr with ⟨q, r⟩
    rcases ccb_ok_te hq with h | h
    · rw [h, ht]
    · exact h

/-! ### Inversion lemmas for the fee distributor -/

theorem collect_fees_ok {d d2 : FeeDistributor} {c c2 : TokenFeeConfig}
    {fee : Nat} (h : collect_fees d c fee = .ok (d2, c2)) :
    d2 = { d with
            protocol_balance := d.protocol_balance +
              fee * d.protocol_fee_bps /
                (d.protocol_fee_bps + d.creator_fee_bps)
            total_fees_collected := d.total_fees_collected + fee } ∧
    c2 = { c with
            creator_balance := c.creator_balance +
              (fee - fee * d.protocol_fee_bps /
                (d.protocol_fee_bps + d.creator_fee_bps))
            fees_collected := c.fees_collected + fee } ∧
    fee * d.protocol_fee_bps / (d.protocol_fee_bps + d.creator_fee_bps) ≤
      fee ∧
    d.protocol_fee_bps + d.creator_fee_bps ≠ 0 := by
  unfold collect_fees at h
  split at h
  next => exact Except.noConfusion h
  next total_bps hTot =>
    split at h
    next => exact Except.noConfusion h
    next prod hProd =>
      split at h
      next => exact Except.noConfusion h
      next pAmt hDiv =>
        split at h
        next => exact Except.noConfusion h
        next hle =>
          split at h
          next => exact Except.noConfusion h
          next pbal hPbal =>
            split at h
            next => exact Except.noConfusion h
            next cbal hCbal =>
              split at h
              next => exact Except.noConfusion h
              next dtot hDtot =>
                split at h
                next => exact Except.noConfusion h
                next ctot hCtot =>
                  injection h with h
                  injection h with hd hc
                  obtain ⟨hT, _⟩ := chkAdd_ok hTot
                  obtain ⟨hP, _⟩ := chkMul_ok hProd
                  obtain ⟨hD, hDne⟩ := chkDiv_ok hDiv
                  obtain ⟨hB1, _⟩ := chkAdd_ok hPbal
                  obtain ⟨hB2, _⟩ := chkAdd_ok hCbal
                  obtain ⟨hB3, _⟩ := chkAdd_ok hDtot
                  obtain ⟨hB4, _⟩ := chkAdd_ok hCtot
                  subst hT hP hD hB1 hB2 hB3 hB4
                  push_neg at hle
                  exact ⟨hd.symm, hc.symm, hle, hDne⟩

theorem withdraw_protocol_fees_ok {d d2 : FeeDistributor} {amt : Nat}
    (h : withdraw_protocol_fees d = .ok (d2, amt)) :
    d2 = { d with protocol_balance := 0 } ∧ amt = d.protocol_balance ∧
    0 < d.protocol_balance := by
  unfold withdraw_protocol_fees at h
  split at h
  · exact Except.noConfusion h
  · next hpos =>
      injection h with h
      injection h with hd ha
      push_neg at hpos
      exact ⟨hd.symm, ha.symm, hpos⟩

theorem update_fee_distribution_ok {d d2 : FeeDistributor} {p c : Nat}
    (h : update_fee_distribution d p c = .ok d2) :
    d2.protocol_fee_bps = p ∧ d2.creator_fee_bps = c ∧ p + c = 1000 := by
  unfold update_fee_distribution at h
  split at h
  next => exact Except.noConfusion h
  next s hs =>
    split at h
    next => exact Except.noConfusion h
    next hsum =>
      injection h with h
      obtain ⟨hS, _⟩ := chkAdd_ok hs
      push_neg at hsum
      subst hS
      exact ⟨by rw [← h], by rw [← h], by rw [← hsum]⟩

/-! ### Claim theorems: fee router -/

/-- C6: for any fee amount and configured basis points, a successful
`collect_fees` computes `protocolAmount = fee * protocolBps /
(protocolBps + creatorBps)` by integer division and `creatorAmount =
fee - protocolAmount`, credits exactly those amounts, their sum is
exactly the fee, and the truncation remainder goes to the creator side
(the protocol side never exceeds, and the creator side never falls
short of, its exact proportional share). -/
theorem C6_fee_split_exact (d : FeeDistributor) (c : TokenFeeConfig)
    (fee : Nat) (d2 : FeeDistributor) (c2 : TokenFeeConfig)
    (h : collect_fees d c fee = .ok (d2, c2)) :
    d2.protocol_balance = d.protocol_balance +
      fee * d.protocol_fee_bps / (d.protocol_fee_bps + d.creator_fee_bps) ∧
    c2.creator_balance = c.creator_balance +
      (fee - fee * d.protocol_fee_bps /
        (d.protocol_fee_bps + d.creator_fee_bps)) ∧
    fee * d.protocol_fee_bps / (d.protocol_fee_bps + d.creator_fee_bps) +
      (fee - fee * d.protocol_fee_bps /
        (d.protocol_fee_bps + d.creator_fee_bps)) = fee ∧
    (fee * d.protocol_fee_bps / (d.protocol_fee_bps + d.creator_fee_bps)) *
      (d.protocol_fee_bps + d.creator_fee_bps) ≤ fee * d.protocol_fee_bps ∧
    fee * d.creator_fee_bps ≤
      (fee - fee * d.protocol_fee_bps /
        (d.protocol_fee_bps + d.creator_fee_bps)) *
        (d.protocol_fee_bps + d.creator_fee_bps) ∧
    d2.total_fees_collected = d.total_fees_collected + fee ∧
    c2.fees_collected = c.fees_collected + fee := by
  obtain ⟨hd, hc, hle, _⟩ := collect_fees_ok h
  subst hd hc
  refine ⟨rfl, rfl, by omega, Nat.div_mul_le_self _ _, ?_, rfl, rfl⟩
  have h1 : (fee * d.protocol_fee_bps /
      (d.protocol_fee_bps + d.creator_fee_bps)) *
      (d.protocol_fee_bps + d.creator_fee_bps) ≤ fee * d.protocol_fee_bps :=
    Nat.div_mul_le_self _ _
  have h2 : (fee - fee * d.protocol_fee_bps /
      (d.protocol_fee_bps + d.creator_fee_bps)) *
      (d.protocol_fee_bps + d.creator_fee_bps) =
      fee * d.protocol_fee_bps + fee * d.creator_fee_bps -
        (fee * d.protocol_fee_bps /
          (d.protocol_fee_bps + d.creator_fee_bps)) *
          (d.protocol_fee_bps + d.creator_fee_bps) := by
    rw [Nat.sub_mul, Nat.mul_add]
  rw [h2]
  omega

/-- Witness for C6 at a concrete run: a 1001-unit fee against the
initial 200/800 configuration splits into 200 for the protocol and 801
for the creator (remainder to the creator), summing back to 1001. -/
theorem C6_fee_split_exact_witness :
    (cDist6.protocol_balance = (distributorInit 3).protocol_balance +
      1001 * (distributorInit 3).protocol_fee_bps /
        ((distributorInit 3).protocol_fee_bps +
          (distributorInit 3).creator_fee_bps)) ∧
    1001 * (distributorInit 3).protocol_fee_bps /
        ((distributorInit 3).protocol_fee_bps +
          (distributorInit 3).creator_fee_bps) +
      (1001 - 1001 * (distributorInit 3).protocol_fee_bps /
        ((distributorInit 3).protocol_fee_bps +
          (distributorInit 3).creator_fee_bps)) = 1001 := by
  have h := C6_fee_split_exact (distributorInit 3)
    (create_token_fee_config 1 2) 1001 cDist6 cCfg6 (by decide)
  exact ⟨h.1, h.2.2.1⟩

/-- C10: in every reachable distributor state the fee-split divisor
`protocol_fee_bps + creator_fee_bps` equals 1000 (hence is positive, so
the division in `collect_fees` is never by zero). -/
theorem C10_divisor_invariant (d : FeeDistributor) (h : ReachableD d) :
    d.protocol_fee_bps + d.creator_fee_bps = 1000 ∧
    0 < d.protocol_fee_bps + d.creator_fee_bps := by
  have h1 : d.protocol_fee_bps + d.creator_fee_bps = 1000 := by
    induction h with
    | init sender => rfl
    | collect hd hok ih =>
        obtain ⟨h2, -, -, -⟩ := collect_fees_ok hok
        subst h2
        exact ih
    | withdraw hd hok ih =>
        obtain ⟨h2, -, -⟩ := withdraw_protocol_fees_ok hok
        subst h2
        exact ih
    | update hd hok ih =>
        obtain ⟨h2, h3, h4⟩ := update_fee_distribution_ok hok
        rw [h2, h3, h4]
    | recipient r hd ih => exact ih
  exact ⟨h1, by omega⟩

/-- Witness for C10 at the freshly initialized distributor. -/
theorem C10_divisor_invariant_witness :
    (distributorInit 0).protocol_fee_bps +
      (distributorInit 0).creator_fee_bps = 1000 :=
  (C10_divisor_invariant (distributorInit 0) (ReachableD.init 0)).1

/-! ### Claim theorems: liquidity lock escrow -/

/-- C2: `unlock_liquidity` rejects while `now < unlockTime`
(`ELockStillActive`) and when the caller is not the original depositor
(`EInvalidLock`); on success it removes the lock record and transfers
exactly the full locked balance to the depositor; any rejected unlock
leaves the escrow unchanged (the aborting transaction reverts); and in
the concrete lock(1000, 30 days) scenario, unlocking at
`unlockTime - 1` fails, unlocking at `unlockTime` returns exactly 1000,
and a second unlock of the same lock id fails (`ELockNotFound`). -/
theorem C2_unlock_escrow (lk : LiquidityLocker) (L : LLock)
    (now lock_id sender : Nat) (hget : tblGet lk.locks lock_id = some L) :
    (sender = L.locker → now < L.unlock_time →
      unlock_liquidity lk now lock_id sender = .error (.abort 0)) ∧
    (¬ sender = L.locker →
      unlock_liquidity lk now lock_id sender = .error (.abort 2)) ∧
    (sender = L.locker → L.unlock_time ≤ now →
      unlock_liquidity lk now lock_id sender =
        .ok ({ lk with locks := tblRemove lk.locks lock_id },
             L.token_balance)) ∧
    (∀ e, unlock_liquidity lk now lock_id sender = .error e →
      persistL lk (unlock_liquidity lk now lock_id sender) = lk) ∧
    (∀ lk2 amt, unlock_liquidity lk now lock_id sender = .ok (lk2, amt) →
      tblContains lk2.locks lock_id = false) ∧
    lock_liquidity lockerInit 1000 1000 7 2592000 9 42 = .ok lkA ∧
    unlock_liquidity lkA 2592999 42 9 = .error (.abort 0) ∧
    unlock_liquidity lkA 2593000 42 9 = .ok (lkB, 1000) ∧
    unlock_liquidity lkB 2593000 42 9 = .error (.abort 3) := by
  have hc : tblContains lk.locks lock_id = true := tblContains_of_get hget
  refine ⟨?_, ?_, ?_, ?_, ?_, by decide, by decide, by decide, by decide⟩
  · intro hs hlt
    simp only [unlock_liquidity, hc, not_true, if_false, hget]
    rw [if_neg (by omega), if_pos (by omega)]
  · intro hs
    simp only [unlock_liquidity, hc, not_true, if_false, hget]
    rw [if_pos (by omega)]
  · intro hs hge
    simp only [unlock_liquidity, hc, not_true, if_false, hget]
    rw [if_neg (by omega), if_neg (by omega)]
  · intro e he
    simp only [persistL, he]
  · intro lk2 amt hok
    simp only [unlock_liquidity, hc, not_true, if_false, hget] at hok
    split at hok
    · exact Except.noConfusion hok
    · split at hok
      · exact Except.noConfusion hok
      · injection hok with hok
        injection hok with h1 h2
        rw [← h1]
        exact tblContains_tblRemove_self _ _

/-- Witness for C2: the maturity and ownership rejections applied to
the concrete lock held in `lkA`. -/
theorem C2_unlock_escrow_witness :
    unlock_liquidity lkA 2592999 42 9 = .error (.abort 0) ∧
    unlock_liquidity lkA 2593000 42 8 = .error (.abort 2) := by
  have h1 := C2_unlock_escrow lkA ⟨1000, 7, 9, 2593000⟩ 2592999 42 9
    (by decide)
  have h2 := C2_unlock_escrow lkA ⟨1000, 7, 9, 2593000⟩ 2593000 42 8
    (by decide)
  exact ⟨h1.1 rfl (by decide), h2.2.1 (by decide)⟩

/-! ### Claim theorems: anti-bot engine -/

/-- C3 counterexample: with a zero max-buy cap, a clean
(non-whitelisted, non-blacklisted) buyer's first `check_can_buy` at the
enable time aborts on the buy-limit check, the transaction reverts, and
the persisted `trading_enabled` is still `false` — so the first call at
or after `enableTime` does not flip the flag permanently, contradicting
the claim as stated. -/
theorem C3_counterexample :
    is_whitelisted pCap 5 = false ∧
    tblContains pCap.blacklist 5 = false ∧
    pCap.trading_enabled = false ∧
    pCap.enable_time ≤ 100 ∧
    check_can_buy pCap 5 1 10000 100 = .error (.abort 3) ∧
    (persistPB pCap (check_can_buy pCap 5 1 10000 100)).trading_enabled =
      false := by
  decide

/-- C3 amended: `trading_enabled` is monotonic across every anti-bot
operation (no operation's persisted state turns it from `true` back to
`false`); a clean buyer's `check_can_buy` before `enableTime` (with
trading still disabled) aborts with `ETradingNotEnabled`; and any
NON-ABORTING `check_can_buy` of a clean buyer at or after `enableTime`
returns `true` with `trading_enabled` flipped (hence, by monotonicity,
permanently) — a call that aborts on the buy-limit or cooldown check
reverts and leaves the flag unchanged. -/
theorem C3_monotonic_amended :
    (∀ (p : TokenProtection) (b a s n : Nat), p.trading_enabled = true →
      (persistPB p (check_can_buy p b a s n)).trading_enabled = true) ∧
    (∀ (p : TokenProtection) (s : Nat), p.trading_enabled = true →
      (persistP p (enable_trading p s)).trading_enabled = true) ∧
    (∀ (p : TokenProtection) (a s : Nat),
      (persistP p (add_to_whitelist p a s)).trading_enabled =
        p.trading_enabled) ∧
    (∀ (p : TokenProtection) (a s : Nat),
      (persistP p (remove_from_whitelist p a s)).trading_enabled =
        p.trading_enabled) ∧
    (∀ (p : TokenProtection) (a s : Nat),
      (persistP p (add_to_blacklist p a s)).trading_enabled =
        p.trading_enabled) ∧
    (∀ (p : TokenProtection) (a s : Nat),
      (persistP p (remove_from_blacklist p a s)).trading_enabled =
        p.trading_enabled) ∧
    (∀ (p : TokenProtection) (v s : Nat),
      (persistP p (update_max_buy_percent p v s)).trading_enabled =
        p.trading_enabled) ∧
    (∀ (p : TokenProtection) (v s : Nat),
      (persistP p (update_cooldown_period p v s)).trading_enabled =
        p.trading_enabled) ∧
    (∀ (p : TokenProtection) (b a s n : Nat), p.trading_enabled = false →
      is_whitelisted p b = false → tblContains p.blacklist b = false →
      n < p.enable_time →
      check_can_buy p b a s n = .error (.abort 0)) ∧
    (∀ (p q : TokenProtection) (b a s n : Nat) (r : Bool),
      is_whitelisted p b = false → tblContains p.blacklist b = false →
      p.enable_time ≤ n → check_can_buy p b a s n = .ok (q, r) →
      q.trading_enabled = true ∧ r = true) :=
  ⟨te_ccb, te_enable_trading, te_add_wl, te_remove_wl, te_add_bl,
   te_remove_bl, te_update_mbp, te_update_cd, ccb_before_enable,
   fun _ _ _ _ _ _ _ hwl hbl hn h => ccb_flip hwl hbl hn h⟩

/-- Witness for C3 amended: the before-enable rejection and the
at-enable flip on concrete protection objects. -/
theorem C3_monotonic_amended_witness :
    check_can_buy pCap 5 1 10000 99 = .error (.abort 0) ∧
    p9a.trading_enabled = true := by
  have h := C3_monotonic_amended
  refine ⟨h.2.2.2.2.2.2.2.2.1 pCap 5 1 10000 99
    (by decide) (by decide) (by decide) (by decide), ?_⟩
  exact (h.2.2.2.2.2.2.2.2.2 p9 p9a 5 500 10000 1000 true
    (by decide) (by decide) (by decide) (by decide)).1

/-- C4 counterexample: whitelisted buyer 5 passes `check_can_buy` with
amount 100, yet the returned state is unchanged and holds no tracking
record for the buyer — `totalBought` is not increased by the amount, so
the claimed upsert-on-every-pass is false. -/
theorem C4_counterexample :
    is_whitelisted pWl 5 = true ∧
    check_can_buy pWl 5 100 10000 0 = .ok (pWl, true) ∧
    tblGet pWl.buy_tracking 5 = none := by
  decide

/-- C4 amended: whitelisted buyers always pass, bypassing all other
checks INCLUDING the tracking update (the state is returned untouched);
for every non-whitelisted buyer whose `check_can_buy` passes, the
tracking record is upserted: `totalBought` becomes the previously
tracked total plus the buy amount and `lastBuyTime` becomes the current
time. -/
theorem C4_pass_upsert_amended :
    (∀ (p : TokenProtection) (b a s n : Nat), is_whitelisted p b = true →
      check_can_buy p b a s n = .ok (p, true)) ∧
    (∀ (p q : TokenProtection) (b a s n : Nat),
      is_whitelisted p b = false → check_can_buy p b a s n = .ok (q, true) →
      tblGet q.buy_tracking b = some ⟨trackedBought p b + a, n⟩) :=
  ⟨ccb_whitelisted, fun _ _ b a s n hwl h => ccb_upsert b a s n hwl h⟩

/-- Witness for C4 amended: the whitelist bypass on `pWl` and the
upsert after buyer 5's first tracked buy on `p9`. -/
theorem C4_pass_upsert_amended_witness :
    check_can_buy pWl 5 100 10000 0 = .ok (pWl, true) ∧
    tblGet p9a.buy_tracking 5 = some ⟨trackedBought p9 5 + 500, 1000⟩ := by
  have h := C4_pass_upsert_amended
  exact ⟨h.1 pWl 5 100 10000 0 (by decide),
    h.2 p9 p9a 5 500 10000 1000 (by decide) (by decide)⟩

/-- C8: whitelist mutation is owner-only and fail-loud — a non-owner
caller aborts; adding an already-whitelisted address aborts with
`EAddressAlreadyWhitelisted`; removing an absent address aborts with
`EAddressNotWhitelisted`; an aborted call leaves the whitelist
unchanged (the transaction reverts), and a successful add appends the
address. -/
theorem C8_whitelist_fail_loud :
    (∀ (p : TokenProtection) (a s : Nat), ¬ p.owner = s →
      add_to_whitelist p a s = .error (.abort 0)) ∧
    (∀ (p : TokenProtection) (a s : Nat), ¬ p.owner = s →
      remove_from_whitelist p a s = .error (.abort 0)) ∧
    (∀ (p : TokenProtection) (a s : Nat), p.owner = s →
      is_whitelisted p a = true →
      add_to_whitelist p a s = .error (.abort 1)) ∧
    (∀ (p : TokenProtection) (a s : Nat), p.owner = s →
      is_whitelisted p a = false →
      remove_from_whitelist p a s = .error (.abort 2)) ∧
    (∀ (p : TokenProtection) (a s : Nat) (e : MoveErr),
      add_to_whitelist p a s = .error e →
      (persistP p (add_to_whitelist p a s)).whitelist = p.whitelist) ∧
    (∀ (p : TokenProtection) (a s : Nat) (e : MoveErr),
      remove_from_whitelist p a s = .error e →
      (persistP p (remove_from_whitelist p a s)).whitelist = p.whitelist) ∧
    (∀ (p : TokenProtection) (a s : Nat), p.owner = s →
      is_whitelisted p a = false →
      add_to_whitelist p a s =
        .ok { p with whitelist := p.whitelist ++ [a] }) := by
  refine ⟨?_, ?_, ?_, ?_, ?_, ?_, ?_⟩
  · intro p a s ho
    unfold add_to_whitelist
    rw [if_pos ho]
  · intro p a s ho
    unfold remove_from_whitelist
    rw [if_pos ho]
  · intro p a s ho hw
    unfold add_to_whitelist
    rw [if_neg (by omega), if_pos hw]
  · intro p a s ho hw
    unfold remove_from_whitelist
    rw [if_neg (by omega)]
    rw [vecIndexOf_none hw]
  · intro p a s e he
    simp [persistP, he]
  · intro p a s e he
    simp [persistP, he]
  · intro p a s ho hw
    unfold add_to_whitelist
    rw [if_neg (by omega), if_neg (by simp [hw])]

/-- Witness for C8: the owner-only, duplicate-add and absent-remove
rejections on the concrete whitelist `[1, 5]` owned by `1`. -/
theorem C8_whitelist_fail_loud_witness :
    add_to_whitelist pWl 9 2 = .error (.abort 0) ∧
    add_to_whitelist pWl 5 1 = .error (.abort 1) ∧
    remove_from_whitelist pWl 7 1 = .error (.abort 2) ∧
    (persistP pWl (add_to_whitelist pWl 5 1)).whitelist = pWl.whitelist := by
  have h := C8_whitelist_fail_loud
  have h3 := h.2.2.1 pWl 5 1 rfl (by decide)
  exact ⟨h.1 pWl 9 2 (by decide), h3,
    h.2.2.2.1 pWl 7 1 rfl (by decide),
    h.2.2.2.2.1 pWl 5 1 (.abort 1) h3⟩

/-- C9: the buy cap of `check_can_buy` is enforced only per
transaction — a pass of a non-whitelisted buyer implies only
`amount ≤ totalSupply * maxBuyPercent / 10000` — and cumulative
purchases can exceed it: on `p9` (5% cap of a 10000 supply, i.e. at
most 500 per buy), buyer 5 passes twice with 500 each and ends with a
tracked total of 1000, which exceeds the cap. -/
theorem C9_per_tx_cap_only :
    (∀ (p q : TokenProtection) (b a s n : Nat),
      is_whitelisted p b = false → check_can_buy p b a s n = .ok (q, true) →
      a ≤ s * p.max_buy_percent / 10000) ∧
    check_can_buy p9 5 500 10000 1000 = .ok (p9a, true) ∧
    check_can_buy p9a 5 500 10000 2000 = .ok (p9b, true) ∧
    tblGet p9b.buy_tracking 5 = some ⟨1000, 2000⟩ ∧
    10000 * p9.max_buy_percent / 10000 < 1000 ∧
    p9a.max_buy_percent = p9.max_buy_percent :=
  ⟨fun _ _ b a s n hwl h => ccb_cap b a s n hwl h,
   by decide, by decide, by decide, by decide, by decide⟩

/-- Witness for C9's universally quantified cap clause at the first
concrete buy on `p9`. -/
theorem C9_per_tx_cap_only_witness :
    (500 : Nat) ≤ 10000 * p9.max_buy_percent / 10000 :=
  C9_per_tx_cap_only.1 p9 p9a 5 500 10000 1000 (by decide) (by decide)

/-! ### Claim theorems: telegram rate limiter -/

/-- C5: with `maxRequests = 3`, `timeWindow = 3600` and
`cooldown = 86400`, an actor's first three admission checks within one
window are allowed (counts 1, 2, 3), the fourth within the window is
rate-limited and starts a cooldown until `t4 + 86400`, every check
strictly before that instant stays rejected without changing the
record, and the first check at or after it is allowed with the window
fully reset (count restarted at 1, fresh window start). -/
theorem C5_rate_window (t1 t2 t3 t4 t t5 : Nat)
    (h12 : t1 ≤ t2) (h23 : t2 ≤ t3) (h34 : t3 ≤ t4)
    (hw2 : t2 - t1 < timeWindow) (hw3 : t3 - t1 < timeWindow)
    (hw4 : t4 - t1 < timeWindow)
    (hct : t4 ≤ t) (hct2 : t < t4 + cooldown)
    (ht5 : t4 + cooldown ≤ t5) :
    isRateLimited none t1 = (false, ⟨1, t1, false, 0⟩) ∧
    isRateLimited (some ⟨1, t1, false, 0⟩) t2 = (false, ⟨2, t1, false, 0⟩) ∧
    isRateLimited (some ⟨2, t1, false, 0⟩) t3 = (false, ⟨3, t1, false, 0⟩) ∧
    isRateLimited (some ⟨3, t1, false, 0⟩) t4 =
      (true, ⟨3, t1, true, t4 + cooldown⟩) ∧
    isRateLimited (some ⟨3, t1, true, t4 + cooldown⟩) t =
      (true, ⟨3, t1, true, t4 + cooldown⟩) ∧
    isRateLimited (some ⟨3, t1, true, t4 + cooldown⟩) t5 =
      (false, ⟨1, t5, false, t4 + cooldown⟩) := by
  refine ⟨rfl, ?_, ?_, ?_, ?_, ?_⟩
  · unfold isRateLimited
    dsimp only
    rw [if_neg (by simp), if_pos hw2, if_neg (by decide)]
  · unfold isRateLimited
    dsimp only
    rw [if_neg (by simp), if_pos hw3, if_neg (by decide)]
  · unfold isRateLimited
    dsimp only
    rw [if_neg (by simp), if_pos hw4, if_pos (by decide)]
  · unfold isRateLimited
    dsimp only
    rw [if_pos rfl, if_pos hct2]
  · unfold isRateLimited
    dsimp only
    rw [if_pos rfl, if_neg (by omega)]

/-- Witness for C5 at concrete times 0, 10, 20, 30, with a rejected
check at 86429 (last second of the cooldown) and an allowed, reset
check at 86430. -/
theorem C5_rate_window_witness :
    isRateLimited none 0 = (false, ⟨1, 0, false, 0⟩) ∧
    isRateLimited (some ⟨3, 0, false, 0⟩) 30 =
      (true, ⟨3, 0, true, 30 + cooldown⟩) ∧
    isRateLimited (some ⟨3, 0, true, 30 + cooldown⟩) 86429 =
      (true, ⟨3, 0, true, 30 + cooldown⟩) ∧
    isRateLimited (some ⟨3, 0, true, 30 + cooldown⟩) 86430 =
      (false, ⟨1, 86430, false, 30 + cooldown⟩) := by
  have h := C5_rate_window 0 10 20 30 86429 86430
    (by omega) (by omega) (by omega)
    (by decide) (by decide) (by decide)
    (by omega) (by decide) (by decide)
  exact ⟨h.1, h.2.2.2.1, h.2.2.2.2.1, h.2.2.2.2.2⟩

/-! ### Claim theorems: request normalizer -/

/-- C7 counterexample: the input `"ab$"` is trimmed, uppercased and
stripped to `"AB"`, which has 2 characters — so the request is
ACCEPTED, while the claim says `"ab$"` is rejected with the
symbol-length reason. -/
theorem C7_counterexample :
    exReq.tokenSymbol = some "ab$" ∧
    (validateTokenParams exReq 0).isValid = true ∧
    (validateTokenParams exReq 0).tokenSymbol = some "AB" ∧
    normalizeSymbol "ab$" = "AB" := by
  refine ⟨rfl, rfl, rfl, rfl⟩

/-- C7 amended: for every input passing the earlier checks (token
request, confidence at least 70, nonempty name and symbol), the symbol
is trimmed, uppercased and stripped of every character other than
letters, digits and underscore (the JavaScript `\w` class), the result
is stored back, and the request is rejected with the symbol-length
reason exactly when the normalized symbol has fewer than 2 or more
than 5 characters; `"AB"` and `"ABCDE"` are accepted, `"A"` and
`"ABCDEF"` rejected, while `"ab$"` normalizes to `"AB"` and is
accepted. -/
theorem C7_symbol_normalization_amended (tp : ParsedRequest) (r : Nat)
    (h1 : tp.isTokenRequest = true) (h2 : 70 ≤ tp.confidence)
    (h3 : truthy tp.tokenName = true) (h4 : truthy tp.tokenSymbol = true) :
    ((validateTokenParams tp r).tokenSymbol =
      some (normalizeSymbol (tp.tokenSymbol.getD ""))) ∧
    ((validateTokenParams tp r).isValid = false ↔
      ((normalizeSymbol (tp.tokenSymbol.getD "")).length < 2 ∨
       (normalizeSymbol (tp.tokenSymbol.getD "")).length > 5)) ∧
    ((validateTokenParams tp r).isValid = false →
      (validateTokenParams tp r).reason =
        some "Token symbol must be 2-5 characters") := by
  unfold validateTokenParams
  rw [if_neg (by simp [h1]; omega), if_neg (by simp [h3]),
    if_neg (by simp [h4])]
  dsimp only
  by_cases hlen : (normalizeSymbol (tp.tokenSymbol.getD "")).length < 2 ∨
      (normalizeSymbol (tp.tokenSymbol.getD "")).length > 5
  · rw [if_pos hlen]
    refine ⟨rfl, ?_, fun _ => rfl⟩
    simp [hlen]
  · rw [if_neg hlen]
    refine ⟨rfl, ?_, fun hc => Bool.noConfusion hc⟩
    simp [hlen]

/-- Witness for C7 amended: the symbol `"ABCDEF"` (6 characters after
normalization) is rejected with the symbol-length reason. -/
theorem C7_symbol_normalization_amended_witness :
    (validateTokenParams exReq7 0).isValid = false ∧
    (validateTokenParams exReq7 0).reason =
      some "Token symbol must be 2-5 characters" := by
  have h := C7_symbol_normalization_amended exReq7 0 rfl (by decide)
    (by decide) (by decide)
  exact ⟨h.2.1.mpr (by decide), h.2.2 (h.2.1.mpr (by decide))⟩

/-! ### Claim theorems: deployment orchestrator -/

/-- Characterization of `processTokenDeployment`: its `success` flag is
the conjunction of the parse admission, parameter validation and
`deployToken` success, and the liquidity/lock step outcomes are only
reported in the `liquidityAdded` / `liquidityLocked` fields of a
successful result. -/
theorem ptd_characterization (env : DeployEnv) (r : Nat) (s u : String) :
    (processTokenDeployment env r s u).success =
      ((env.parsed.isTokenRequest && !decide (env.parsed.confidence < 70)) &&
        ((validateTokenParams env.parsed r).isValid &&
          (deployToken env).success)) ∧
    (processTokenDeployment env r s u).liquidityAdded =
      (if (processTokenDeployment env r s u).success = true
       then some env.liquidityOk else none) ∧
    (processTokenDeployment env r s u).liquidityLocked =
      (if (processTokenDeployment env r s u).success = true
       then some env.lockOk else none) := by
  unfold processTokenDeployment
  by_cases hA : ¬ env.parsed.isTokenRequest = true ∨ env.parsed.confidence < 70
  · rw [if_pos hA]
    refine ⟨?_, by simp, by simp⟩
    rcases hA with hA | hA
    · simp [Bool.eq_false_iff.mpr hA]
    · simp [hA]
  · rw [if_neg hA]
    push_neg at hA
    obtain ⟨hT, hC⟩ := hA
    by_cases hV : (validateTokenParams env.parsed r).isValid = true
    · rw [if_neg (by simp [hV])]
      by_cases hD : (deployToken env).success = true
      · rw [if_neg (by simp [hD])]
        refine ⟨?_, by simp, by simp⟩
        simp [hT, hV, hD, Nat.not_lt.mpr hC]
      · rw [if_pos (by simp [hD])]
        refine ⟨?_, by simp, by simp⟩
        simp [Bool.eq_false_iff.mpr hD]
    · rw [if_pos (by simp [hV])]
      refine ⟨?_, by simp, by simp⟩
      simp [Bool.eq_false_iff.mpr hV]

/-- C1 counterexample: in the run `exEnv` the liquidity-provisioning,
liquidity-locking and anti-bot steps all return unsuccessful results,
yet `processTokenDeployment` reports `success = true` (recording the
liquidity outcome only as `liquidityAdded = some false`) — so a failed
post-creation step does not make the deployment report failure. -/
theorem C1_counterexample :
    exEnv.liquidityOk = false ∧ exEnv.lockOk = false ∧
    exEnv.antiBotOk = false ∧
    (processTokenDeployment exEnv 0 "telegram" "u1").success = true ∧
    (processTokenDeployment exEnv 0 "telegram" "u1").liquidityAdded =
      some false ∧
    (processTokenDeployment exEnv 0 "telegram" "u1").liquidityLocked =
      some false :=
  ⟨rfl, rfl, rfl, rfl, rfl, rfl⟩

/-- C1 amended: the returned `DeploymentResult` has `success = false`
exactly when the request fails parsing admission, parameter validation,
or `deployToken` itself (a thrown creation transaction or a missing
token id); the step results of anti-bot setup, fee configuration,
liquidity provisioning and liquidity locking never affect `success` —
the latter two are only reported in the `liquidityAdded` and
`liquidityLocked` fields of a successful result. -/
theorem C1_deploy_failure_amended (env : DeployEnv) (r : Nat)
    (s u : String) :
    ((processTokenDeployment env r s u).success = true ↔
      (env.parsed.isTokenRequest = true ∧ 70 ≤ env.parsed.confidence ∧
       (validateTokenParams env.parsed r).isValid = true ∧
       (deployToken env).success = true)) ∧
    (∀ b1 b2 b3 b4 : Bool,
      (processTokenDeployment
        { env with antiBotOk := b1, feeConfigOk := b2,
                   liquidityOk := b3, lockOk := b4 } r s u).success =
        (processTokenDeployment env r s u).success) ∧
    ((processTokenDeployment env r s u).liquidityAdded =
      (if (processTokenDeployment env r s u).success = true
       then some env.liquidityOk else none)) ∧
    ((processTokenDeployment env r s u).liquidityLocked =
      (if (processTokenDeployment env r s u).success = true
       then some env.lockOk else none)) ∧
    ((deployToken env).success = true ↔
      ∃ o, env.createToken = .ok o ∧ o.extractedTokenId.isSome = true) := by
  obtain ⟨hS, hLA, hLL⟩ := ptd_characterization env r s u
  refine ⟨?_, ?_, hLA, hLL, ?_⟩
  · rw [hS]
    simp [Bool.and_eq_true, Nat.not_lt, and_assoc]
  · intro b1 b2 b3 b4
    rw [(ptd_characterization _ r s u).1, hS]
    rfl
  · unfold deployToken
    cases hc : env.createToken with
    | error e => simp
    | ok o =>
      cases ho : o.extractedTokenId with
      | none => simp [ho]
      | some tid => simp [ho]

/-- Witness for C1 amended: the run `exEnv` passes all the success
conditions, giving `success = true`. -/
theorem C1_deploy_failure_amended_witness :
    (processTokenDeployment exEnv 0 "telegram" "u1").success = true :=
  (C1_deploy_failure_amended exEnv 0 "telegram" "u1").1.mpr
    ⟨rfl, by decide, by decide, by decide⟩



